import Mathlib

/-
Verification of the SOCSEM v8.0.1 soil OCS exchange model
(src/SOCSEM/COS_abiotic_biotic_soil_flux.py).

The numeric core is embedded over the real numbers: every Python function
becomes a Lean definition with the same name, the same parameters and the
same arithmetic expression (`np.exp` becomes `Real.exp`, `np.log` becomes
`Real.log`, the float power `**` becomes real `rpow`).  The scalar/array
dual dispatch of the biome-level functions is embedded as a pair of
definitions: the scalar branch over `ℝ` and the array branch over `List ℝ`
(the `np.where(temperature > 0.0)` fancy-indexing assignment acts
positionally, so over equal-length lists the array branch is the
per-position conditional it implements).
-/

noncomputable section

/-! ## Abiotic production curves (source lines 61-95) -/

def OCS_rainforest_production (soil_temp : ℝ) : ℝ :=
  let pru_a : ℝ := 2.7 * 3
  let pru_k : ℝ := 0.123581
  let pru_b : ℝ := 205
  pru_a / (1 + pru_b * Real.exp (-pru_k * soil_temp))

def OCS_forest_production (soil_temp : ℝ) : ℝ :=
  let wrc_a : ℝ := 20
  let wrc_k : ℝ := 0.160745
  let wrc_b : ℝ := 644.7
  wrc_a / (1 + wrc_b * Real.exp (-wrc_k * soil_temp))

def OCS_ag_production (soil_temp : ℝ) : ℝ :=
  let bond_a : ℝ := 83
  let ok_k : ℝ := 0.087689
  let ok_b : ℝ := 146.9
  bond_a / (1 + ok_b * Real.exp (-ok_k * soil_temp))

def OCS_grass_production (soil_temp : ℝ) : ℝ :=
  let stunt_a : ℝ := 3.9
  let stunt_k : ℝ := 0.115481
  let stunt_b : ℝ := 286
  stunt_a / (1 + stunt_b * Real.exp (-stunt_k * soil_temp))

def OCS_wetland_production (soil_temp : ℝ) : ℝ :=
  let tx_a : ℝ := 295
  let tx_k : ℝ := 0.07855407
  let tx_b : ℝ := 41.16705972
  tx_a / (1 + tx_b * Real.exp (-tx_k * soil_temp))

/-! ## Moisture response curve (source lines 123-145) -/

def curve_shape_a (opt_flux flux_at_theta_g theta_g theta_opt : ℝ) : ℝ :=
  let Rj := opt_flux / flux_at_theta_g
  let outs := Real.log Rj
  let inversed := Real.log (theta_opt / theta_g) + (theta_g / theta_opt - 1)
  let ins := 1 / inversed
  outs * ins

def flux_at_all_theta (all_theta opt_flux flux_at_theta_g theta_g theta_opt : ℝ) : ℝ :=
  let a := curve_shape_a opt_flux flux_at_theta_g theta_g theta_opt
  let power_fct_increasing := (all_theta / theta_opt) ^ a
  let exp_fct_decreasing := Real.exp (-1 * a * (all_theta / theta_opt - 1))
  opt_flux * power_fct_increasing * exp_fct_decreasing

def CONSTANT_PARAM : ℝ := 35

def flux_theta_g_constant (all_theta opt_flux flux_at_theta_g theta_opt : ℝ) : ℝ :=
  let a := curve_shape_a opt_flux flux_at_theta_g CONSTANT_PARAM theta_opt
  let power_fct_increasing := (all_theta / theta_opt) ^ a
  let exp_fct_decreasing := Real.exp (-1 * a * (all_theta / theta_opt - 1))
  opt_flux * power_fct_increasing * exp_fct_decreasing

/-! ## Biotic uptake, per biome (source lines 173-247).
The Python nullary functions returning literals become constants. -/

def grass_opt_sw : ℝ := 12.5
def grass_opt_uptake (T : ℝ) : ℝ :=
  flux_at_all_theta T (-4.5) (-1.48268657) 25 10.86745456
def grass_other_uptake (T : ℝ) : ℝ :=
  flux_at_all_theta T (-2.33809598) (-1.27719641) 25 14.75202332
def grass_uptake (T SW : ℝ) : ℝ :=
  let opt_uptake_for_T := grass_opt_uptake T
  let uptake_at_27_sw := grass_other_uptake T
  flux_at_all_theta SW opt_uptake_for_T uptake_at_27_sw 26.9 grass_opt_sw

def boreal_opt_sw : ℝ := 12.5
def boreal_opt_uptake (T : ℝ) : ℝ :=
  flux_at_all_theta T (-18.24779932) (-12) 35 28.05488082
def boreal_other_uptake (T : ℝ) : ℝ :=
  flux_at_all_theta T (-5.89511395) (-3.76628476) 35 28.05488082
def boreal_uptake (T SW : ℝ) : ℝ :=
  let opt_uptake_for_T := boreal_opt_uptake T
  let uptake_at_20_sw := boreal_other_uptake T
  flux_at_all_theta SW opt_uptake_for_T uptake_at_20_sw 19.3 boreal_opt_sw

def temperate_opt_sw : ℝ := 24.6
def temperate_opt_uptake (T : ℝ) : ℝ := -12.6
def temperate_other_uptake (T : ℝ) : ℝ := -0.17629655 * T + 0.47914552
def temperate_uptake (T SW : ℝ) : ℝ :=
  let opt_uptake_for_T := temperate_opt_uptake T
  let uptake_at_51_sw := temperate_other_uptake T
  flux_at_all_theta SW opt_uptake_for_T uptake_at_51_sw 51 temperate_opt_sw

def tropical_opt_sw : ℝ := 24.6
def tropical_opt_uptake (T : ℝ) : ℝ := -2.7
def tropical_other_uptake (T : ℝ) : ℝ := -0.86
/-- The source shadows the module-level CONSTANT_PARAM with a local
`CONSTANT_PARAM = 31.` that it never reads; the call passes the literal 31. -/
def tropical_uptake (T SW : ℝ) : ℝ :=
  let opt_uptake_for_T := tropical_opt_uptake T
  let uptake_at_31_sw := tropical_other_uptake T
  flux_at_all_theta SW opt_uptake_for_T uptake_at_31_sw 31 tropical_opt_sw

def ag_opt_sw : ℝ := 17.7
def ag_opt_uptake : ℝ := -9.7
def ag_other_uptake : ℝ := -5.36
/-- The source sets a local `CONSTANT_PARAM = 22.` it never reads; the call
passes the literal 22. -/
def ag_uptake (T SW : ℝ) : ℝ :=
  let opt_uptake_for_T := ag_opt_uptake
  let uptake_at_22_sw := ag_other_uptake
  flux_at_all_theta SW opt_uptake_for_T uptake_at_22_sw 22 ag_opt_sw

/-! ## Biome flux orchestrators, scalar branch (source lines 260-336).
Each Python body is `if np.isscalar(temperature) and temperature > 0.0: ...`
followed by the array branch and `else: return 0.0`; for a scalar real
temperature this is `if temperature > 0 then biotic + abiotic else 0`. -/

def grass_soil_OCS (temperature soilw : ℝ) : ℝ :=
  if temperature > 0 then
    grass_uptake temperature soilw + OCS_grass_production temperature
  else 0

def bforest_soil_OCS (temperature soilw : ℝ) (avg_T : ℝ := 20) (avg_SW : ℝ := 20) : ℝ :=
  if temperature > 0 then
    boreal_uptake temperature soilw + OCS_forest_production temperature
  else 0

def tforest_soil_OCS (temperature soilw : ℝ) (avg_T : ℝ := 20) (avg_SW : ℝ := 20) : ℝ :=
  if temperature > 0 then
    temperate_uptake temperature soilw + OCS_forest_production temperature
  else 0

def tropforest_soil_OCS (temperature soilw : ℝ) (avg_T : ℝ := 20) (avg_SW : ℝ := 20) : ℝ :=
  if temperature > 0 then
    tropical_uptake temperature soilw + OCS_rainforest_production temperature
  else 0

def ag_soil_OCS (temperature soilw : ℝ) : ℝ :=
  if temperature > 0 then
    ag_uptake temperature soilw + OCS_ag_production temperature
  else 0

def wetland_OCS (temperature : ℝ) (soilw : ℝ := 0) : ℝ :=
  OCS_wetland_production temperature

/-! ## Biome flux orchestrators, array branch.
The source initializes `out = np.array(temperature)*0.0` and then assigns
`biotic + abiotic` at the index set `np.where(temperature > 0.0)`; over two
equal-length lists of reals this is the positional conditional below
(untouched positions keep their initial value `T * 0.0`). -/

def grass_soil_OCS_array (temperature soilw : List ℝ) : List ℝ :=
  List.zipWith
    (fun T SW => if T > 0 then grass_uptake T SW + OCS_grass_production T else T * 0.0)
    temperature soilw

def bforest_soil_OCS_array (temperature soilw : List ℝ) : List ℝ :=
  List.zipWith
    (fun T SW => if T > 0 then boreal_uptake T SW + OCS_forest_production T else T * 0.0)
    temperature soilw

def tforest_soil_OCS_array (temperature soilw : List ℝ) : List ℝ :=
  List.zipWith
    (fun T SW => if T > 0 then temperate_uptake T SW + OCS_forest_production T else T * 0.0)
    temperature soilw

def tropforest_soil_OCS_array (temperature soilw : List ℝ) : List ℝ :=
  List.zipWith
    (fun T SW => if T > 0 then tropical_uptake T SW + OCS_rainforest_production T else T * 0.0)
    temperature soilw

def ag_soil_OCS_array (temperature soilw : List ℝ) : List ℝ :=
  List.zipWith
    (fun T SW => if T > 0 then ag_uptake T SW + OCS_ag_production T else T * 0.0)
    temperature soilw

/-- Array branch of wetland_OCS: `OCS_wetland_production(temperature)` maps
the logistic elementwise over the temperature array; soilw is ignored. -/
def wetland_OCS_array (temperature soilw : List ℝ) : List ℝ :=
  temperature.map OCS_wetland_production

/-! ## Floating-point special values.
The claims about NaN and ±Inf behaviour concern IEEE-754 special values,
which the real-number embedding above cannot express.  `FP` is a float
value: NaN, +Inf, −Inf, or a finite value (modelled as an exact real;
rounding is irrelevant to special-value propagation).  The arithmetic
below follows IEEE-754 / numpy semantics: NaN propagates, Inf − Inf,
0·Inf, 0/0 and Inf/Inf are NaN, `np.log` of a negative number is NaN and
of zero is −Inf, `np.exp(−Inf)` is 0, division of a nonzero finite value
by zero gives a signed Inf, and `**` follows C `pow` (pow(±1, ±Inf) = 1,
pow(x, NaN) = NaN except pow(1, NaN) = 1).  Signed zero is not modelled:
the only zeros the claims exercise arise as positive zeros. -/

inductive FP where
  | nan : FP
  | inf : FP
  | ninf : FP
  | val : ℝ → FP

def isFinite : FP → Prop
  | FP.val _ => True
  | _ => False

def fpNeg : FP → FP
  | FP.nan => FP.nan
  | FP.inf => FP.ninf
  | FP.ninf => FP.inf
  | FP.val a => FP.val (-a)

def fpAdd : FP → FP → FP
  | FP.nan, _ => FP.nan
  | _, FP.nan => FP.nan
  | FP.inf, FP.ninf => FP.nan
  | FP.ninf, FP.inf => FP.nan
  | FP.inf, _ => FP.inf
  | _, FP.inf => FP.inf
  | FP.ninf, _ => FP.ninf
  | _, FP.ninf => FP.ninf
  | FP.val a, FP.val b => FP.val (a + b)

def fpSub (x y : FP) : FP := fpAdd x (fpNeg y)

def fpMul : FP → FP → FP
  | FP.nan, _ => FP.nan
  | _, FP.nan => FP.nan
  | FP.inf, FP.inf => FP.inf
  | FP.inf, FP.ninf => FP.ninf
  | FP.ninf, FP.inf => FP.ninf
  | FP.ninf, FP.ninf => FP.inf
  | FP.inf, FP.val b => if 0 < b then FP.inf else if b < 0 then FP.ninf else FP.nan
  | FP.val a, FP.inf => if 0 < a then FP.inf else if a < 0 then FP.ninf else FP.nan
  | FP.ninf, FP.val b => if 0 < b then FP.ninf else if b < 0 then FP.inf else FP.nan
  | FP.val a, FP.ninf => if 0 < a then FP.ninf else if a < 0 then FP.inf else FP.nan
  | FP.val a, FP.val b => FP.val (a * b)

def fpDiv : FP → FP → FP
  | FP.nan, _ => FP.nan
  | _, FP.nan => FP.nan
  | FP.inf, FP.inf => FP.nan
  | FP.inf, FP.ninf => FP.nan
  | FP.ninf, FP.inf => FP.nan
  | FP.ninf, FP.ninf => FP.nan
  | FP.inf, FP.val b => if 0 ≤ b then FP.inf else FP.ninf
  | FP.ninf, FP.val b => if 0 ≤ b then FP.ninf else FP.inf
  | FP.val _, FP.inf => FP.val 0
  | FP.val _, FP.ninf => FP.val 0
  | FP.val a, FP.val b =>
      if b = 0 then (if a = 0 then FP.nan else if 0 < a then FP.inf else FP.ninf)
      else FP.val (a / b)

def fpExp : FP → FP
  | FP.nan => FP.nan
  | FP.inf => FP.inf
  | FP.ninf => FP.val 0
  | FP.val x => FP.val (Real.exp x)

def fpLog : FP → FP
  | FP.nan => FP.nan
  | FP.inf => FP.inf
  | FP.ninf => FP.nan
  | FP.val x =>
      if 0 < x then FP.val (Real.log x) else if x = 0 then FP.ninf else FP.nan

open Classical in
def fpPow : FP → FP → FP
  | FP.val x, FP.val y =>
      if 0 < x then FP.val (x ^ y)
      else if x = 0 then
        (if 0 < y then FP.val 0 else if y = 0 then FP.val 1 else FP.inf)
      else if ∃ n : ℤ, y = (n : ℝ) then FP.val (x ^ y) else FP.nan
  | FP.val x, FP.inf =>
      if x = 1 ∨ x = -1 then FP.val 1 else if |x| < 1 then FP.val 0 else FP.inf
  | FP.val x, FP.ninf =>
      if x = 1 ∨ x = -1 then FP.val 1 else if |x| < 1 then FP.inf else FP.val 0
  | FP.val x, FP.nan => if x = 1 then FP.val 1 else FP.nan
  | FP.inf, FP.val y =>
      if 0 < y then FP.inf else if y = 0 then FP.val 1 else FP.val 0
  | FP.ninf, FP.val y =>
      if 0 < y then (if ∃ n : ℤ, y = 2 * (n : ℝ) + 1 then FP.ninf else FP.inf)
      else if y = 0 then FP.val 1 else FP.val 0
  | FP.inf, FP.inf => FP.inf
  | FP.inf, FP.ninf => FP.val 0
  | FP.ninf, FP.inf => FP.inf
  | FP.ninf, FP.ninf => FP.val 0
  | FP.inf, FP.nan => FP.nan
  | FP.ninf, FP.nan => FP.nan
  | FP.nan, FP.val y => if y = 0 then FP.val 1 else FP.nan
  | FP.nan, _ => FP.nan

/-! ## The model's float semantics: the same source functions, evaluated
over `FP` instead of `ℝ`, operation by operation. -/

def curve_shape_a_fp (opt_flux flux_at_theta_g theta_g theta_opt : FP) : FP :=
  let Rj := fpDiv opt_flux flux_at_theta_g
  let outs := fpLog Rj
  let inversed :=
    fpAdd (fpLog (fpDiv theta_opt theta_g)) (fpSub (fpDiv theta_g theta_opt) (FP.val 1))
  let ins := fpDiv (FP.val 1) inversed
  fpMul outs ins

def flux_at_all_theta_fp (all_theta opt_flux flux_at_theta_g theta_g theta_opt : FP) : FP :=
  let a := curve_shape_a_fp opt_flux flux_at_theta_g theta_g theta_opt
  let power_fct_increasing := fpPow (fpDiv all_theta theta_opt) a
  let exp_fct_decreasing :=
    fpExp (fpMul (fpMul (FP.val (-1)) a) (fpSub (fpDiv all_theta theta_opt) (FP.val 1)))
  fpMul (fpMul opt_flux power_fct_increasing) exp_fct_decreasing

def OCS_rainforest_production_fp (soil_temp : FP) : FP :=
  fpDiv (FP.val (2.7 * 3))
    (fpAdd (FP.val 1) (fpMul (FP.val 205) (fpExp (fpMul (FP.val (-0.123581)) soil_temp))))

def OCS_forest_production_fp (soil_temp : FP) : FP :=
  fpDiv (FP.val 20)
    (fpAdd (FP.val 1) (fpMul (FP.val 644.7) (fpExp (fpMul (FP.val (-0.160745)) soil_temp))))

def OCS_ag_production_fp (soil_temp : FP) : FP :=
  fpDiv (FP.val 83)
    (fpAdd (FP.val 1) (fpMul (FP.val 146.9) (fpExp (fpMul (FP.val (-0.087689)) soil_temp))))

def OCS_grass_production_fp (soil_temp : FP) : FP :=
  fpDiv (FP.val 3.9)
    (fpAdd (FP.val 1) (fpMul (FP.val 286) (fpExp (fpMul (FP.val (-0.115481)) soil_temp))))

def grass_opt_uptake_fp (T : FP) : FP :=
  flux_at_all_theta_fp T (FP.val (-4.5)) (FP.val (-1.48268657)) (FP.val 25) (FP.val 10.86745456)
def grass_other_uptake_fp (T : FP) : FP :=
  flux_at_all_theta_fp T (FP.val (-2.33809598)) (FP.val (-1.27719641)) (FP.val 25) (FP.val 14.75202332)
def grass_uptake_fp (T SW : FP) : FP :=
  flux_at_all_theta_fp SW (grass_opt_uptake_fp T) (grass_other_uptake_fp T)
    (FP.val 26.9) (FP.val grass_opt_sw)

def boreal_opt_uptake_fp (T : FP) : FP :=
  flux_at_all_theta_fp T (FP.val (-18.24779932)) (FP.val (-12)) (FP.val 35) (FP.val 28.05488082)
def boreal_other_uptake_fp (T : FP) : FP :=
  flux_at_all_theta_fp T (FP.val (-5.89511395)) (FP.val (-3.76628476)) (FP.val 35) (FP.val 28.05488082)
def boreal_uptake_fp (T SW : FP) : FP :=
  flux_at_all_theta_fp SW (boreal_opt_uptake_fp T) (boreal_other_uptake_fp T)
    (FP.val 19.3) (FP.val boreal_opt_sw)

def temperate_opt_uptake_fp (T : FP) : FP := FP.val (-12.6)
def temperate_other_uptake_fp (T : FP) : FP :=
  fpAdd (fpMul (FP.val (-0.17629655)) T) (FP.val 0.47914552)
def temperate_uptake_fp (T SW : FP) : FP :=
  flux_at_all_theta_fp SW (temperate_opt_uptake_fp T) (temperate_other_uptake_fp T)
    (FP.val 51) (FP.val temperate_opt_sw)

def tropical_opt_uptake_fp (T : FP) : FP := FP.val (-2.7)
def tropical_other_uptake_fp (T : FP) : FP := FP.val (-0.86)
def tropical_uptake_fp (T SW : FP) : FP :=
  flux_at_all_theta_fp SW (tropical_opt_uptake_fp T) (tropical_other_uptake_fp T)
    (FP.val 31) (FP.val tropical_opt_sw)

def ag_uptake_fp (T SW : FP) : FP :=
  flux_at_all_theta_fp SW (FP.val ag_opt_uptake) (FP.val ag_other_uptake)
    (FP.val 22) (FP.val ag_opt_sw)

/-! ## Biome flux orchestrators over float scalars.
The Python guard `np.isscalar(temperature) and temperature > 0.0` is a
float comparison: true for +Inf and positive finite values, false for NaN,
−Inf and nonpositive finite values; when it is false a scalar input falls
through the array branch's `np.isscalar(temperature)==False` guard to the
final `return 0.0`. -/

def grass_soil_OCS_fp (temperature soilw : FP) : FP :=
  match temperature with
  | FP.val T =>
      if T > 0 then
        fpAdd (grass_uptake_fp (FP.val T) soilw) (OCS_grass_production_fp (FP.val T))
      else FP.val 0
  | FP.inf => fpAdd (grass_uptake_fp FP.inf soilw) (OCS_grass_production_fp FP.inf)
  | _ => FP.val 0

def bforest_soil_OCS_fp (temperature soilw : FP) (avg_T : ℝ := 20) (avg_SW : ℝ := 20) : FP :=
  match temperature with
  | FP.val T =>
      if T > 0 then
        fpAdd (boreal_uptake_fp (FP.val T) soilw) (OCS_forest_production_fp (FP.val T))
      else FP.val 0
  | FP.inf => fpAdd (boreal_uptake_fp FP.inf soilw) (OCS_forest_production_fp FP.inf)
  | _ => FP.val 0

def tforest_soil_OCS_fp (temperature soilw : FP) (avg_T : ℝ := 20) (avg_SW : ℝ := 20) : FP :=
  match temperature with
  | FP.val T =>
      if T > 0 then
        fpAdd (temperate_uptake_fp (FP.val T) soilw) (OCS_forest_production_fp (FP.val T))
      else FP.val 0
  | FP.inf => fpAdd (temperate_uptake_fp FP.inf soilw) (OCS_forest_production_fp FP.inf)
  | _ => FP.val 0

def tropforest_soil_OCS_fp (temperature soilw : FP) (avg_T : ℝ := 20) (avg_SW : ℝ := 20) : FP :=
  match temperature with
  | FP.val T =>
      if T > 0 then
        fpAdd (tropical_uptake_fp (FP.val T) soilw) (OCS_rainforest_production_fp (FP.val T))
      else FP.val 0
  | FP.inf => fpAdd (tropical_uptake_fp FP.inf soilw) (OCS_rainforest_production_fp FP.inf)
  | _ => FP.val 0

def ag_soil_OCS_fp (temperature soilw : FP) : FP :=
  match temperature with
  | FP.val T =>
      if T > 0 then
        fpAdd (ag_uptake_fp (FP.val T) soilw) (OCS_ag_production_fp (FP.val T))
      else FP.val 0
  | FP.inf => fpAdd (ag_uptake_fp FP.inf soilw) (OCS_ag_production_fp FP.inf)
  | _ => FP.val 0

/-! ## Helper lemmas -/

lemma logistic_pos_lt (A k b T : ℝ) (hA : 0 < A) (hb : 0 < b) :
    0 < A / (1 + b * Real.exp (-k * T)) ∧ A / (1 + b * Real.exp (-k * T)) < A := by
  have he : 0 < Real.exp (-k * T) := Real.exp_pos _
  have hd : 1 < 1 + b * Real.exp (-k * T) := by nlinarith
  exact ⟨div_pos hA (by linarith), div_lt_self hA hd⟩

lemma flux_at_theta_opt (opt fg tg topt : ℝ) (hto : topt ≠ 0) :
    flux_at_all_theta topt opt fg tg topt = opt := by
  simp [flux_at_all_theta, div_self hto, Real.one_rpow]

/-! ## Claims -/

/-- C1: every non-wetland biome flux function returns exactly 0 for any
scalar temperature T ≤ 0 (including T = 0) and any moisture: the only
nonzero branch is guarded by the strict comparison T > 0. -/
theorem nonwetland_flux_zero_at_nonpositive_temp (T SW : ℝ) (h : T ≤ 0) :
    grass_soil_OCS T SW = 0 ∧ bforest_soil_OCS T SW = 0 ∧
    tforest_soil_OCS T SW = 0 ∧ tropforest_soil_OCS T SW = 0 ∧
    ag_soil_OCS T SW = 0 := by
  have h0 : ¬ (T > 0) := not_lt.mpr h
  simp [grass_soil_OCS, bforest_soil_OCS, tforest_soil_OCS, tropforest_soil_OCS,
    ag_soil_OCS, h0]

/-- Witness for C1 at the boundary T = 0. -/
theorem nonwetland_flux_zero_at_nonpositive_temp_witness :
    ((0 : ℝ) ≤ 0) ∧
    (grass_soil_OCS 0 20 = 0 ∧ bforest_soil_OCS 0 20 = 0 ∧
     tforest_soil_OCS 0 20 = 0 ∧ tropforest_soil_OCS 0 20 = 0 ∧
     ag_soil_OCS 0 20 = 0) :=
  ⟨le_refl 0, nonwetland_flux_zero_at_nonpositive_temp 0 20 (le_refl 0)⟩

/-- C3: wetland_OCS ignores its moisture argument and applies no temperature
gate: for every T and SW it equals OCS_wetland_production T, which is exactly
295/(1 + 41.16705972·exp(−0.07855407·T)), and is strictly positive (hence
nonzero also for T ≤ 0). -/
theorem wetland_flux_ignores_moisture_no_gate (T SW : ℝ) :
    wetland_OCS T SW = OCS_wetland_production T ∧
    wetland_OCS T SW = 295 / (1 + 41.16705972 * Real.exp (-0.07855407 * T)) ∧
    0 < wetland_OCS T SW := by
  refine ⟨rfl, rfl, ?_⟩
  have he : 0 < Real.exp (-0.07855407 * T) := Real.exp_pos _
  show (0 : ℝ) < 295 / (1 + 41.16705972 * Real.exp (-0.07855407 * T))
  positivity

/-- C4: with a positive flux ratio and distinct reference/optimum moistures,
curve_shape_a is exactly ln(opt/fg) / (ln(topt/tg) + tg/topt − 1) and
flux_at_all_theta is exactly opt · (θ/topt)^a · exp(−a·(θ/topt − 1)). -/
theorem shape_and_curve_closed_forms (opt fg tg topt θ : ℝ)
    (h1 : 0 < opt / fg) (h2 : tg ≠ topt) :
    curve_shape_a opt fg tg topt =
      Real.log (opt / fg) / (Real.log (topt / tg) + tg / topt - 1) ∧
    flux_at_all_theta θ opt fg tg topt =
      opt * (θ / topt) ^ (curve_shape_a opt fg tg topt) *
        Real.exp (-(curve_shape_a opt fg tg topt) * (θ / topt - 1)) := by
  constructor
  · show Real.log (opt / fg) * (1 / (Real.log (topt / tg) + (tg / topt - 1))) = _
    rw [mul_one_div, add_sub_assoc]
  · show opt * (θ / topt) ^ (curve_shape_a opt fg tg topt) *
        Real.exp (-1 * curve_shape_a opt fg tg topt * (θ / topt - 1)) = _
    have harg : (-1 : ℝ) * curve_shape_a opt fg tg topt * (θ / topt - 1) =
        -(curve_shape_a opt fg tg topt) * (θ / topt - 1) := by ring
    rw [harg]

/-- Witness for C4 at (opt, fg, tg, topt, θ) = (2, 1, 2, 1, 3). -/
theorem shape_and_curve_closed_forms_witness :
    (0 < (2 : ℝ) / 1) ∧ ((2 : ℝ) ≠ 1) ∧
    (curve_shape_a 2 1 2 1 =
      Real.log (2 / 1) / (Real.log (1 / 2) + 2 / 1 - 1) ∧
     flux_at_all_theta 3 2 1 2 1 =
      2 * ((3 : ℝ) / 1) ^ (curve_shape_a 2 1 2 1) *
        Real.exp (-(curve_shape_a 2 1 2 1) * (3 / 1 - 1))) :=
  ⟨by norm_num, by norm_num,
    shape_and_curve_closed_forms 2 1 2 1 3 (by norm_num) (by norm_num)⟩

/-- C5: for valid shape parameters the moisture response curve evaluated at
the optimum moisture returns exactly the optimum flux. -/
theorem moisture_curve_at_optimum (opt fg tg topt : ℝ)
    (h1 : 0 < opt / fg) (h2 : tg ≠ topt) (h3 : 0 < topt) :
    flux_at_all_theta topt opt fg tg topt = opt :=
  flux_at_theta_opt opt fg tg topt (ne_of_gt h3)

/-- Witness for C5 at (opt, fg, tg, topt) = (2, 1, 2, 1). -/
theorem moisture_curve_at_optimum_witness :
    (0 < (2 : ℝ) / 1) ∧ ((2 : ℝ) ≠ 1) ∧ (0 < (1 : ℝ)) ∧
    flux_at_all_theta 1 2 1 2 1 = 2 :=
  ⟨by norm_num, by norm_num, by norm_num,
    moisture_curve_at_optimum 2 1 2 1 (by norm_num) (by norm_num) (by norm_num)⟩

/-- C6: at the biome's optimum moisture the moisture curve collapses to the
temperature-curve value: grass_soil_OCS 20 12.5 equals
grass_opt_uptake 20 + OCS_grass_production 20, and ag_soil_OCS 30 17.7
equals ag_opt_uptake + OCS_ag_production 30 (exactly, in the real model). -/
theorem optimum_moisture_collapse_scenarios :
    grass_soil_OCS 20 12.5 = grass_opt_uptake 20 + OCS_grass_production 20 ∧
    ag_soil_OCS 30 17.7 = ag_opt_uptake + OCS_ag_production 30 := by
  have hg : grass_uptake 20 12.5 = grass_opt_uptake 20 := by
    simp only [grass_uptake, grass_opt_sw]
    exact flux_at_theta_opt _ _ _ _ (by norm_num)
  have ha : ag_uptake 30 17.7 = ag_opt_uptake := by
    simp only [ag_uptake, ag_opt_sw]
    exact flux_at_theta_opt _ _ _ _ (by norm_num)
  constructor
  · rw [grass_soil_OCS, if_pos (by norm_num : (20 : ℝ) > 0), hg]
  · rw [ag_soil_OCS, if_pos (by norm_num : (30 : ℝ) > 0), ha]

/-- C7: each abiotic production function is the logistic
a_max/(1 + b·exp(−k·T)) with the spec's per-biome constants, and its value
is strictly between 0 and a_max for every temperature. -/
theorem abiotic_production_forms_and_bounds (T : ℝ) :
    (OCS_rainforest_production T = 8.1 / (1 + 205 * Real.exp (-0.123581 * T)) ∧
      0 < OCS_rainforest_production T ∧ OCS_rainforest_production T < 8.1) ∧
    (OCS_forest_production T = 20 / (1 + 644.7 * Real.exp (-0.160745 * T)) ∧
      0 < OCS_forest_production T ∧ OCS_forest_production T < 20) ∧
    (OCS_ag_production T = 83 / (1 + 146.9 * Real.exp (-0.087689 * T)) ∧
      0 < OCS_ag_production T ∧ OCS_ag_production T < 83) ∧
    (OCS_grass_production T = 3.9 / (1 + 286 * Real.exp (-0.115481 * T)) ∧
      0 < OCS_grass_production T ∧ OCS_grass_production T < 3.9) ∧
    (OCS_wetland_production T =
        295 / (1 + 41.16705972 * Real.exp (-0.07855407 * T)) ∧
      0 < OCS_wetland_production T ∧ OCS_wetland_production T < 295) := by
  have h1 : OCS_rainforest_production T =
      8.1 / (1 + 205 * Real.exp (-0.123581 * T)) := by
    norm_num [OCS_rainforest_production]
  have b1 := logistic_pos_lt 8.1 0.123581 205 T (by norm_num) (by norm_num)
  have h2 : OCS_forest_production T =
      20 / (1 + 644.7 * Real.exp (-0.160745 * T)) := rfl
  have b2 := logistic_pos_lt 20 0.160745 644.7 T (by norm_num) (by norm_num)
  have h3 : OCS_ag_production T =
      83 / (1 + 146.9 * Real.exp (-0.087689 * T)) := rfl
  have b3 := logistic_pos_lt 83 0.087689 146.9 T (by norm_num) (by norm_num)
  have h4 : OCS_grass_production T =
      3.9 / (1 + 286 * Real.exp (-0.115481 * T)) := rfl
  have b4 := logistic_pos_lt 3.9 0.115481 286 T (by norm_num) (by norm_num)
  have h5 : OCS_wetland_production T =
      295 / (1 + 41.16705972 * Real.exp (-0.07855407 * T)) := rfl
  have b5 := logistic_pos_lt 295 0.07855407 41.16705972 T (by norm_num) (by norm_num)
  exact ⟨⟨h1, h1 ▸ b1.1, h1 ▸ b1.2⟩, ⟨h2, h2 ▸ b2.1, h2 ▸ b2.2⟩,
    ⟨h3, h3 ▸ b3.1, h3 ▸ b3.2⟩, ⟨h4, h4 ▸ b4.1, h4 ▸ b4.2⟩,
    ⟨h5, h5 ▸ b5.1, h5 ▸ b5.2⟩⟩

/-! Helper lemmas for the array/scalar equivalence (C2). -/

lemma zipWith_gate_eq (bio : ℝ → ℝ → ℝ) (abio : ℝ → ℝ) :
    ∀ (Ts SWs : List ℝ),
      List.zipWith (fun T SW => if T > 0 then bio T SW + abio T else T * 0.0) Ts SWs =
      List.zipWith (fun T SW => if T > 0 then bio T SW + abio T else 0) Ts SWs := by
  intro Ts
  induction Ts with
  | nil => intro SWs; rfl
  | cons T Ts ih =>
    intro SWs
    cases SWs with
    | nil => rfl
    | cons SW SWs =>
      simp only [List.zipWith]
      refine congrArg₂ _ ?_ (ih SWs)
      by_cases h : T > 0
      · simp [h]
      · simp only [if_neg h]
        norm_num

lemma zipWith_map_left (f : ℝ → ℝ) :
    ∀ (Ts SWs : List ℝ), Ts.length = SWs.length →
      List.zipWith (fun T _ => f T) Ts SWs = Ts.map f := by
  intro Ts
  induction Ts with
  | nil => intro SWs _; rfl
  | cons T Ts ih =>
    intro SWs h
    cases SWs with
    | nil => exact absurd h (by simp)
    | cons SW SWs =>
      simp only [List.zipWith, List.map]
      exact congrArg _ (ih SWs (by simpa using h))

lemma zipWith_len (f : ℝ → ℝ → ℝ) (Ts SWs : List ℝ) (h : Ts.length = SWs.length) :
    (List.zipWith f Ts SWs).length = Ts.length := by
  rw [List.length_zipWith, h, min_self]

/-- C2: for equal-shaped inputs, every biome's array-branch evaluation has
the input's shape and equals the position-wise collection of scalar-branch
evaluations. -/
theorem array_branch_equals_scalar_map (Ts SWs : List ℝ) (h : Ts.length = SWs.length) :
    (grass_soil_OCS_array Ts SWs = List.zipWith grass_soil_OCS Ts SWs ∧
      (grass_soil_OCS_array Ts SWs).length = Ts.length) ∧
    (bforest_soil_OCS_array Ts SWs =
        List.zipWith (fun T SW => bforest_soil_OCS T SW) Ts SWs ∧
      (bforest_soil_OCS_array Ts SWs).length = Ts.length) ∧
    (tforest_soil_OCS_array Ts SWs =
        List.zipWith (fun T SW => tforest_soil_OCS T SW) Ts SWs ∧
      (tforest_soil_OCS_array Ts SWs).length = Ts.length) ∧
    (tropforest_soil_OCS_array Ts SWs =
        List.zipWith (fun T SW => tropforest_soil_OCS T SW) Ts SWs ∧
      (tropforest_soil_OCS_array Ts SWs).length = Ts.length) ∧
    (ag_soil_OCS_array Ts SWs = List.zipWith ag_soil_OCS Ts SWs ∧
      (ag_soil_OCS_array Ts SWs).length = Ts.length) ∧
    (wetland_OCS_array Ts SWs =
        List.zipWith (fun T SW => wetland_OCS T SW) Ts SWs ∧
      (wetland_OCS_array Ts SWs).length = Ts.length) := by
  refine ⟨⟨?_, zipWith_len _ Ts SWs h⟩, ⟨?_, zipWith_len _ Ts SWs h⟩,
    ⟨?_, zipWith_len _ Ts SWs h⟩, ⟨?_, zipWith_len _ Ts SWs h⟩,
    ⟨?_, zipWith_len _ Ts SWs h⟩, ⟨?_, ?_⟩⟩
  · exact zipWith_gate_eq grass_uptake OCS_grass_production Ts SWs
  · exact zipWith_gate_eq boreal_uptake OCS_forest_production Ts SWs
  · exact zipWith_gate_eq temperate_uptake OCS_forest_production Ts SWs
  · exact zipWith_gate_eq tropical_uptake OCS_rainforest_production Ts SWs
  · exact zipWith_gate_eq ag_uptake OCS_ag_production Ts SWs
  · exact (zipWith_map_left OCS_wetland_production Ts SWs h).symm
  · show (Ts.map OCS_wetland_production).length = Ts.length
    exact List.length_map Ts _

/-- Witness for C2 on the concrete pair ([1, -1], [2, 3]). -/
theorem array_branch_equals_scalar_map_witness :
    (([1, -1] : List ℝ).length = ([2, 3] : List ℝ).length) ∧
    ((grass_soil_OCS_array [1, -1] [2, 3] =
        List.zipWith grass_soil_OCS [1, -1] [2, 3] ∧
      (grass_soil_OCS_array [1, -1] [2, 3]).length = ([1, -1] : List ℝ).length) ∧
    (bforest_soil_OCS_array [1, -1] [2, 3] =
        List.zipWith (fun T SW => bforest_soil_OCS T SW) [1, -1] [2, 3] ∧
      (bforest_soil_OCS_array [1, -1] [2, 3]).length = ([1, -1] : List ℝ).length) ∧
    (tforest_soil_OCS_array [1, -1] [2, 3] =
        List.zipWith (fun T SW => tforest_soil_OCS T SW) [1, -1] [2, 3] ∧
      (tforest_soil_OCS_array [1, -1] [2, 3]).length = ([1, -1] : List ℝ).length) ∧
    (tropforest_soil_OCS_array [1, -1] [2, 3] =
        List.zipWith (fun T SW => tropforest_soil_OCS T SW) [1, -1] [2, 3] ∧
      (tropforest_soil_OCS_array [1, -1] [2, 3]).length = ([1, -1] : List ℝ).length) ∧
    (ag_soil_OCS_array [1, -1] [2, 3] =
        List.zipWith ag_soil_OCS [1, -1] [2, 3] ∧
      (ag_soil_OCS_array [1, -1] [2, 3]).length = ([1, -1] : List ℝ).length) ∧
    (wetland_OCS_array [1, -1] [2, 3] =
        List.zipWith (fun T SW => wetland_OCS T SW) [1, -1] [2, 3] ∧
      (wetland_OCS_array [1, -1] [2, 3]).length = ([1, -1] : List ℝ).length)) :=
  ⟨rfl, array_branch_equals_scalar_map [1, -1] [2, 3] rfl⟩

/-- C9: curve_shape_a is invariant under simultaneously negating both flux
arguments (the ratio is unchanged). -/
theorem shape_negation_symmetry (opt fg tg topt : ℝ) :
    curve_shape_a (-opt) (-fg) tg topt = curve_shape_a opt fg tg topt := by
  simp only [curve_shape_a, neg_div_neg_eq]

/-! Lemmas about the float model, used for the NaN/Inf claims. -/

lemma fpMul_nan_right (x : FP) : fpMul x FP.nan = FP.nan := by
  cases x <;> rfl

lemma fpMul_not_finite_left (x y : FP) (hx : ¬ isFinite x) :
    ¬ isFinite (fpMul x y) := by
  cases x with
  | val a => exact absurd trivial hx
  | nan => cases y <;> simp [fpMul, isFinite]
  | inf =>
    cases y with
    | nan => simp [fpMul, isFinite]
    | inf => simp [fpMul, isFinite]
    | ninf => simp [fpMul, isFinite]
    | val b => simp only [fpMul]; split_ifs <;> simp [isFinite]
  | ninf =>
    cases y with
    | nan => simp [fpMul, isFinite]
    | inf => simp [fpMul, isFinite]
    | ninf => simp [fpMul, isFinite]
    | val b => simp only [fpMul]; split_ifs <;> simp [isFinite]

lemma fpMul_not_finite_right (x y : FP) (hy : ¬ isFinite y) :
    ¬ isFinite (fpMul x y) := by
  cases y with
  | val b => exact absurd trivial hy
  | nan => rw [fpMul_nan_right]; simp [isFinite]
  | inf =>
    cases x with
    | nan => simp [fpMul, isFinite]
    | inf => simp [fpMul, isFinite]
    | ninf => simp [fpMul, isFinite]
    | val a => simp only [fpMul]; split_ifs <;> simp [isFinite]
  | ninf =>
    cases x with
    | nan => simp [fpMul, isFinite]
    | inf => simp [fpMul, isFinite]
    | ninf => simp [fpMul, isFinite]
    | val a => simp only [fpMul]; split_ifs <;> simp [isFinite]

lemma curve_shape_a_fp_not_finite (opt fg tg topt : ℝ)
    (h : opt / fg ≤ 0 ∨ tg = topt) :
    ¬ isFinite (curve_shape_a_fp (FP.val opt) (FP.val fg) (FP.val tg) (FP.val topt)) := by
  simp only [curve_shape_a_fp]
  rcases h with h | h
  · apply fpMul_not_finite_left
    by_cases hb : fg = 0
    · subst hb
      simp only [fpDiv, if_pos rfl]
      by_cases ho : opt = 0
      · simp [ho, fpLog, isFinite]
      · rcases lt_or_gt_of_ne ho with hlt | hgt
        · rw [if_neg ho, if_neg (not_lt.mpr (le_of_lt hlt))]
          simp [fpLog, isFinite]
        · rw [if_neg ho, if_pos hgt]
          simp [fpLog, isFinite]
    · simp only [fpDiv, if_neg hb, fpLog]
      rw [if_neg (not_lt.mpr h)]
      split_ifs <;> simp [isFinite]
  · subst h
    apply fpMul_not_finite_right
    by_cases h0 : tg = 0
    · subst h0
      simp [fpDiv, fpLog, fpAdd, fpSub, fpNeg, isFinite]
    · have hdd : tg / tg = 1 := div_self h0
      simp only [fpDiv, if_neg h0, hdd, fpLog, fpSub, fpNeg, fpAdd]
      rw [if_pos one_pos, Real.log_one]
      norm_num [isFinite]

lemma flux_core_not_finite (opt ρ : ℝ) (a : FP)
    (ha : ¬ isFinite a) (hρ : 0 ≤ ρ) :
    ¬ isFinite (fpMul (fpMul (FP.val opt) (fpPow (FP.val ρ) a))
      (fpExp (fpMul (fpMul (FP.val (-1)) a) (fpSub (FP.val ρ) (FP.val 1))))) := by
  cases a with
  | val x => exact absurd trivial ha
  | nan =>
    have h1 : fpMul (fpMul (FP.val (-1)) FP.nan) (fpSub (FP.val ρ) (FP.val 1)) =
        FP.nan := rfl
    rw [h1]
    show ¬ isFinite (fpMul _ FP.nan)
    rw [fpMul_nan_right]; simp [isFinite]
  | inf =>
    have hm1 : fpMul (FP.val (-1)) FP.inf = FP.ninf := by norm_num [fpMul]
    have hs : fpSub (FP.val ρ) (FP.val 1) = FP.val (ρ + -1) := rfl
    rcases lt_trichotomy ρ 1 with hlt | heq | hgt
    · have hne : ¬ (ρ = 1 ∨ ρ = -1) := by
        rintro (h | h) <;> simp [h] at hlt hρ <;> linarith
      have habs : |ρ| < 1 := by rw [abs_of_nonneg hρ]; exact hlt
      have hp : fpPow (FP.val ρ) FP.inf = FP.val 0 := by
        simp [fpPow, hne, habs]
      have he : fpMul FP.ninf (FP.val (ρ + -1)) = FP.inf := by
        have : ρ + -1 < 0 := by linarith
        simp [fpMul, not_lt.mpr (le_of_lt this), this]
      rw [hm1, hs, hp, he]
      show ¬ isFinite (fpMul (FP.val (opt * 0)) (fpExp FP.inf))
      simp [fpExp, fpMul, isFinite]
    · subst heq
      have hp : fpPow (FP.val 1) FP.inf = FP.val 1 := by simp [fpPow]
      have he : fpMul FP.ninf (FP.val (1 + -1)) = FP.nan := by
        norm_num [fpMul]
      rw [hm1, hs, hp, he]
      show ¬ isFinite (fpMul _ (fpExp FP.nan))
      rw [show fpExp FP.nan = FP.nan from rfl, fpMul_nan_right]
      simp [isFinite]
    · have hne : ¬ (ρ = 1 ∨ ρ = -1) := by
        rintro (h | h) <;> rw [h] at hgt <;> linarith
      have habs : ¬ |ρ| < 1 := by
        rw [abs_of_nonneg hρ]; linarith
      have hp : fpPow (FP.val ρ) FP.inf = FP.inf := by
        simp [fpPow, hne, habs]
      have he : fpMul FP.ninf (FP.val (ρ + -1)) = FP.ninf := by
        have : 0 < ρ + -1 := by linarith
        simp [fpMul, this]
      rw [hm1, hs, hp, he]
      show ¬ isFinite (fpMul (fpMul (FP.val opt) FP.inf) (fpExp FP.ninf))
      rw [show fpExp FP.ninf = FP.val 0 from rfl]
      simp only [fpMul]
      split_ifs <;> norm_num [isFinite]
  | ninf =>
    have hm1 : fpMul (FP.val (-1)) FP.ninf = FP.inf := by norm_num [fpMul]
    have hs : fpSub (FP.val ρ) (FP.val 1) = FP.val (ρ + -1) := rfl
    rcases lt_trichotomy ρ 1 with hlt | heq | hgt
    · have hne : ¬ (ρ = 1 ∨ ρ = -1) := by
        rintro (h | h) <;> simp [h] at hlt hρ <;> linarith
      have habs : |ρ| < 1 := by rw [abs_of_nonneg hρ]; exact hlt
      have hp : fpPow (FP.val ρ) FP.ninf = FP.inf := by
        simp [fpPow, hne, habs]
      have he : fpMul FP.inf (FP.val (ρ + -1)) = FP.ninf := by
        have : ρ + -1 < 0 := by linarith
        simp [fpMul, not_lt.mpr (le_of_lt this), this]
      rw [hm1, hs, hp, he]
      show ¬ isFinite (fpMul (fpMul (FP.val opt) FP.inf) (fpExp FP.ninf))
      rw [show fpExp FP.ninf = FP.val 0 from rfl]
      simp only [fpMul]
      split_ifs <;> norm_num [isFinite]
    · subst heq
      have hp : fpPow (FP.val 1) FP.ninf = FP.val 1 := by simp [fpPow]
      have he : fpMul FP.inf (FP.val (1 + -1)) = FP.nan := by
        norm_num [fpMul]
      rw [hm1, hs, hp, he]
      show ¬ isFinite (fpMul _ (fpExp FP.nan))
      rw [show fpExp FP.nan = FP.nan from rfl, fpMul_nan_right]
      simp [isFinite]
    · have hne : ¬ (ρ = 1 ∨ ρ = -1) := by
        rintro (h | h) <;> rw [h] at hgt <;> linarith
      have habs : ¬ |ρ| < 1 := by
        rw [abs_of_nonneg hρ]; linarith
      have hp : fpPow (FP.val ρ) FP.ninf = FP.val 0 := by
        simp [fpPow, hne, habs]
      have he : fpMul FP.inf (FP.val (ρ + -1)) = FP.inf := by
        have : 0 < ρ + -1 := by linarith
        simp [fpMul, this]
      rw [hm1, hs, hp, he]
      show ¬ isFinite (fpMul (FP.val (opt * 0)) (fpExp FP.inf))
      simp [fpExp, fpMul, isFinite]

/-- C8 counterexample: at (all_theta, opt_flux, flux_at_theta_g, theta_g,
theta_opt) = (−12.5, 0, 1, 25, 12.5) the ratio 0/1 is ≤ 0, yet the float
evaluation of flux_at_all_theta is the finite value 0.0 rather than NaN or
±Inf: the shape exponent is −Inf, but pow(−1, −Inf) = 1 and exp(−Inf) = 0
yield 0 · 1 · 0 = 0. -/
theorem degenerate_inputs_can_yield_finite_flux :
    ((0 : ℝ) / 1 ≤ 0) ∧
    flux_at_all_theta_fp (FP.val (-12.5)) (FP.val 0) (FP.val 1)
      (FP.val 25) (FP.val 12.5) = FP.val 0 ∧
    isFinite (flux_at_all_theta_fp (FP.val (-12.5)) (FP.val 0) (FP.val 1)
      (FP.val 25) (FP.val 12.5)) := by
  have hpos : 0 < Real.log 0.5 + 1 := by
    rw [show (0.5 : ℝ) = 2⁻¹ by norm_num, Real.log_inv]
    have := Real.log_two_lt_d9
    linarith
  have ha : curve_shape_a_fp (FP.val 0) (FP.val 1) (FP.val 25) (FP.val 12.5) =
      FP.ninf := by
    simp only [curve_shape_a_fp]
    have e1 : fpDiv (FP.val 0) (FP.val 1) = FP.val 0 := by norm_num [fpDiv]
    have e2 : fpLog (FP.val 0) = FP.ninf := by norm_num [fpLog]
    have e3 : fpDiv (FP.val 12.5) (FP.val 25) = FP.val 0.5 := by norm_num [fpDiv]
    have e4 : fpLog (FP.val 0.5) = FP.val (Real.log 0.5) := by norm_num [fpLog]
    have e5 : fpSub (fpDiv (FP.val 25) (FP.val 12.5)) (FP.val 1) = FP.val 1 := by
      norm_num [fpDiv, fpSub, fpNeg, fpAdd]
    rw [e1, e2, e3, e4, e5]
    have e6 : fpAdd (FP.val (Real.log 0.5)) (FP.val 1) =
        FP.val (Real.log 0.5 + 1) := rfl
    rw [e6]
    have e7 : fpDiv (FP.val 1) (FP.val (Real.log 0.5 + 1)) =
        FP.val (1 / (Real.log 0.5 + 1)) := by
      simp [fpDiv, ne_of_gt hpos]
    rw [e7]
    have hb : 0 < 1 / (Real.log 0.5 + 1) := by positivity
    simp only [fpMul]
    rw [if_pos hb]
  have heq : flux_at_all_theta_fp (FP.val (-12.5)) (FP.val 0) (FP.val 1)
      (FP.val 25) (FP.val 12.5) = FP.val 0 := by
    simp only [flux_at_all_theta_fp, ha]
    have hd : fpDiv (FP.val (-12.5)) (FP.val 12.5) = FP.val (-1) := by
      norm_num [fpDiv]
    rw [hd]
    have hp : fpPow (FP.val (-1)) FP.ninf = FP.val 1 := by
      simp [fpPow]
    have hm1 : fpMul (FP.val (-1)) FP.ninf = FP.inf := by norm_num [fpMul]
    have hs : fpSub (FP.val (-1)) (FP.val 1) = FP.val (-2) := by
      norm_num [fpSub, fpNeg, fpAdd]
    have hm2 : fpMul FP.inf (FP.val (-2)) = FP.ninf := by norm_num [fpMul]
    rw [hp, hm1, hs, hm2]
    show fpMul (fpMul (FP.val 0) (FP.val 1)) (fpExp FP.ninf) = FP.val 0
    norm_num [fpExp, fpMul]
  exact ⟨by norm_num, heq, by rw [heq]; trivial⟩

/-- C8 (amended): for finite inputs whose flux ratio is ≤ 0 or whose
reference moisture equals the optimum moisture, curve_shape_a evaluates to
NaN or ±Inf (never a finite value, never an exception), and
flux_at_all_theta propagates this to a NaN or ±Inf result provided the
evaluation moisture is nonnegative and the optimum moisture is positive. -/
theorem degenerate_shape_inputs_not_finite (opt fg tg topt θa : ℝ)
    (h : opt / fg ≤ 0 ∨ tg = topt) (hθ : 0 ≤ θa) (hto : 0 < topt) :
    ¬ isFinite (curve_shape_a_fp (FP.val opt) (FP.val fg) (FP.val tg) (FP.val topt)) ∧
    ¬ isFinite (flux_at_all_theta_fp (FP.val θa) (FP.val opt) (FP.val fg)
        (FP.val tg) (FP.val topt)) := by
  have h1 := curve_shape_a_fp_not_finite opt fg tg topt h
  refine ⟨h1, ?_⟩
  simp only [flux_at_all_theta_fp]
  have hdiv : fpDiv (FP.val θa) (FP.val topt) = FP.val (θa / topt) := by
    simp [fpDiv, ne_of_gt hto]
  rw [hdiv]
  exact flux_core_not_finite opt (θa / topt) _ h1 (div_nonneg hθ (le_of_lt hto))

/-- Witness for the amended C8 at (opt, fg, tg, topt, θa) = (−2, 1, 25, 12.5, 10). -/
theorem degenerate_shape_inputs_not_finite_witness :
    ((-2 : ℝ) / 1 ≤ 0 ∨ (25 : ℝ) = 12.5) ∧ (0 : ℝ) ≤ 10 ∧ (0 : ℝ) < 12.5 ∧
    (¬ isFinite (curve_shape_a_fp (FP.val (-2)) (FP.val 1) (FP.val 25) (FP.val 12.5)) ∧
     ¬ isFinite (flux_at_all_theta_fp (FP.val 10) (FP.val (-2)) (FP.val 1)
        (FP.val 25) (FP.val 12.5))) :=
  ⟨Or.inl (by norm_num), by norm_num, by norm_num,
    degenerate_shape_inputs_not_finite (-2) 1 25 12.5 10
      (Or.inl (by norm_num)) (by norm_num) (by norm_num)⟩

/-- C10: a scalar NaN temperature fails the strict float comparison
`temperature > 0.0`, so every non-wetland biome flux function returns
exactly 0.0 for it, whatever the moisture: the NaN is not propagated. -/
theorem nan_temperature_yields_zero (SW : FP) :
    grass_soil_OCS_fp FP.nan SW = FP.val 0 ∧
    bforest_soil_OCS_fp FP.nan SW = FP.val 0 ∧
    tforest_soil_OCS_fp FP.nan SW = FP.val 0 ∧
    tropforest_soil_OCS_fp FP.nan SW = FP.val 0 ∧
    ag_soil_OCS_fp FP.nan SW = FP.val 0 :=
  ⟨rfl, rfl, rfl, rfl, rfl⟩

end
